import Mathlib

/-!
Verification of the jxw-crawler repository (src/crawler1.py) against its
natural-language specification.  The Python functions are shallowly embedded
as Lean definitions; network and filesystem effects are made explicit
(fetch outcomes are inputs, filesystem writes are returned as a log).
-/

/-- Whether a character counts as stripped whitespace for Python `int(str)`
(ASCII subset; header values are ASCII). -/
def isPySpace (c : Char) : Bool :=
  c = ' ' || c = '\t' || c = '\n' || c = '\r' || c = '\x0b' || c = '\x0c'

/-- Digit run of a Python integer literal after the first digit: decimal
digits with single underscores allowed between digits.  Accumulates the
value; `none` when the run is malformed. -/
def pyDigitsRest (acc : Nat) : List Char → Option Nat
  | [] => some acc
  | '_' :: rest =>
    match rest with
    | [] => none
    | c :: rest' =>
      if c.isDigit then pyDigitsRest (acc * 10 + (c.toNat - 48)) rest' else none
  | c :: rest =>
    if c.isDigit then pyDigitsRest (acc * 10 + (c.toNat - 48)) rest else none

/-- Digit part of a Python integer literal: nonempty, starts with a digit. -/
def pyDigits : List Char → Option Nat
  | [] => none
  | c :: rest => if c.isDigit then pyDigitsRest (c.toNat - 48) rest else none

/-- Python `int(s)` on a string: strip whitespace, optional sign, digits
(with underscores between digits); `none` models `ValueError`. -/
def pyParseInt (s : String) : Option Int :=
  let cs := ((s.toList.dropWhile isPySpace).reverse.dropWhile isPySpace).reverse
  match cs with
  | '+' :: rest => (pyDigits rest).map (fun n => (n : Int))
  | '-' :: rest => (pyDigits rest).map (fun n => -(n : Int))
  | _ => (pyDigits cs).map (fun n => (n : Int))

/-- Python `needle in hay` on character lists: some suffix of `hay` starts
with `needle`. -/
def containsSub (needle : List Char) : List Char → Bool
  | [] => needle.isPrefixOf []
  | c :: rest => needle.isPrefixOf (c :: rest) || containsSub needle rest

/-- Python `needle in hay` on strings. -/
def strContains (hay needle : String) : Bool :=
  containsSub needle.toList hay.toList

/-- Python `str.lower` on one character (ASCII range; header values are
ASCII). -/
def pyLowerChar (c : Char) : Char :=
  if 'A' ≤ c ∧ c ≤ 'Z' then Char.ofNat (c.toNat + 32) else c

/-- Python `str.lower` (ASCII range). -/
def pyLower (s : String) : String :=
  (s.toList.map pyLowerChar).asString

/-- An HTTP response as consumed by the crawler: status code, the two header
fields it reads (`none` = header absent), and the body bytes
(`resp.content`).  `requests` header lookup is case-insensitive, so one
field per header name suffices. -/
structure Response where
  status_code : Nat
  contentType : Option String
  contentLength : Option String
  content : List UInt8
deriving Repr, DecidableEq

/-- `is_image_response` from src/crawler1.py:
status must be 200; `Content-Type` (lowercased) must contain "image" or,
as a fallback, "octet-stream"; then the size check: if `Content-Length`
is present and truthy (non-empty) try to parse it (`int(...) < 128` rejects,
a `ValueError` is passed over), otherwise reject when the body is shorter
than 128 bytes. -/
def is_image_response (resp : Response) : Bool :=
  if resp.status_code ≠ 200 then false
  else
    let ctype := pyLower (resp.contentType.getD "")
    if ¬ (strContains ctype "image") ∧ ¬ (strContains ctype "octet-stream") then
      false
    else
      match resp.contentLength with
      | some cl =>
        if cl = "" then
          -- an empty header value is falsy in Python: body-length branch
          if resp.content.length < 128 then false else true
        else
          match pyParseInt cl with
          | some n => if n < 128 then false else true
          | none => true  -- except ValueError: pass
      | none =>
        if resp.content.length < 128 then false else true

/-- The size check of `is_image_response` in isolation (the part of the
function after the status and content-type tests). -/
def size_check_ok (resp : Response) : Bool :=
  match resp.contentLength with
  | some cl =>
    if cl = "" then
      if resp.content.length < 128 then false else true
    else
      match pyParseInt cl with
      | some n => if n < 128 then false else true
      | none => true
  | none =>
    if resp.content.length < 128 then false else true

/-- Outcome of one HTTP request: a completed response, or a raised
`requests.RequestException` (timeout, connection error, DNS failure). -/
inductive Fetch where
  | resp (r : Response)
  | exn
deriving Repr, DecidableEq

/-- The network outcomes a single `try_fetch_image` call can consume:
the HEAD request, the GET issued inside the HEAD branch, and the GET of
the final fallback block.  Each is an oracle for what the network would
return if that request were issued. -/
structure Network where
  head : Fetch
  get1 : Fetch
  get2 : Fetch
deriving Repr, DecidableEq

/-- `try_fetch_image` from src/crawler1.py, with the network abstracted.
If `head_first`: try HEAD; status 405 falls through to the final GET;
`resp.ok` (status < 400) triggers a verification GET whose classification
is returned; any `RequestException` inside the try block (from the HEAD or
from that inner GET) falls through; a non-ok non-405 HEAD status also falls
through.  The final GET returns the classifier verdict, or `false` on a
`RequestException`. -/
def try_fetch_image (net : Network) (head_first : Bool) : Bool :=
  let fallback :=
    match net.get2 with
    | Fetch.resp r => is_image_response r
    | Fetch.exn => false
  if head_first then
    match net.head with
    | Fetch.exn => fallback
    | Fetch.resp h =>
      if h.status_code = 405 then fallback
      else if h.status_code < 400 then
        match net.get1 with
        | Fetch.resp g => is_image_response g
        | Fetch.exn => fallback
      else fallback
  else fallback

/-- Scanner of `replaceList`, structurally recursive on a fuel argument so
that it evaluates by kernel reduction; every step consumes at least one
list element, so `fuel = l.length` always suffices. -/
def replaceListGo (pat rep : List Char) : Nat → List Char → List Char
  | _, [] => []
  | 0, l => l
  | fuel + 1, c :: rest =>
    if pat.isPrefixOf (c :: rest) ∧ pat ≠ [] then
      rep ++ replaceListGo pat rep fuel (rest.drop (pat.length - 1))
    else
      c :: replaceListGo pat rep fuel rest

/-- Python `hay.replace(pat, rep)` on character lists: replace all
non-overlapping occurrences scanning left to right.  (For the empty
pattern this is the identity, unlike Python; the source only ever uses the
fixed nonempty token.) -/
def replaceList (pat rep l : List Char) : List Char :=
  replaceListGo pat rep l.length l

/-- `replace_timestamp_in_url` from src/crawler1.py:
`url.replace("\x7bts}", str(new_ts))`. -/
def replace_timestamp_in_url (url : String) (new_ts : Int) : String :=
  (replaceList "{ts}".toList (toString new_ts).toList url.toList).asString

/-- Path component of a URL, as `urllib.parse.urlparse(url).path` for the
absolute http(s) URLs this crawler handles: drop the scheme and authority,
stop at the query or fragment. -/
def url_path (url : String) : String :=
  match url.splitOn "://" with
  | [] => ""
  | [p] => (p.toList.takeWhile (fun c => !(c == '?' || c == '#'))).asString
  | _ :: rest =>
    let after := String.intercalate "://" rest
    (((after.toList.dropWhile (fun c => !(c == '/')))).takeWhile
      (fun c => !(c == '?' || c == '#'))).asString

/-- `os.path.basename` on a POSIX path: the part after the last slash. -/
def basename (p : String) : String :=
  ((p.splitOn "/").getLast?).getD ""

/-- Filesystem effects of one `save_image` call: which directories were
created (`os.makedirs(..., exist_ok := True)`, parents included,
idempotent) and which files were written, in order. -/
structure FSLog where
  dirsCreated : List String
  filesWritten : List (String × List UInt8)
deriving Repr, DecidableEq

/-- `save_image` from src/crawler1.py, with the GET outcome abstracted and
filesystem effects returned as a log.  `now` stands for `int(time.time())`.
The directory is created first; then the URL is fetched; a response that
the classifier rejects raises a `RuntimeError` naming the status code and
content type (no file written); a `RequestException` from the GET
propagates (no file written); otherwise the body is written to the derived
path, which is returned. -/
def save_image (fetch : Fetch) (url : String) (save_dir : String) (now : Nat) :
    Except String String × FSLog :=
  let dirs := [save_dir]
  match fetch with
  | Fetch.exn => (Except.error "requests.RequestException", ⟨dirs, []⟩)
  | Fetch.resp resp =>
    if ¬ is_image_response resp then
      (Except.error ("下载失败或非图片响应：" ++ toString resp.status_code ++ " " ++
        resp.contentType.getD ""), ⟨dirs, []⟩)
    else
      let fname0 := basename (url_path url)
      let fname := if fname0 = "" then "image_" ++ toString now ++ ".bin" else fname0
      let save_path := save_dir ++ "/" ++ fname
      (Except.ok save_path, ⟨dirs, [(save_path, resp.content)]⟩)

/-- The loop body of `find_first_valid_image_url`, from loop index `i` with
`fuel` iterations left.  `probe i` is the outcome of the
`try_fetch_image` call made at loop index `i` (the network is an oracle per
attempt).  Returns the result together with the list of loop indices at
which a probe was actually issued.  The sleeps between failed attempts only
consume time and are not modelled; the `try/except ValueError` around the
templating re-raises, but `str.replace` never raises. -/
def findLoop (probe : Nat → Bool) (base_url : String) (start_ts step : Int) :
    Nat → Nat → (Option (String × Int)) × List Nat
  | _, 0 => (none, [])
  | i, fuel + 1 =>
    let ts := start_ts + (i : Int) * step
    let url := replace_timestamp_in_url base_url ts
    if probe i then (some (url, ts), [i])
    else
      let r := findLoop probe base_url start_ts step (i + 1) fuel
      (r.1, i :: r.2)

/-- `find_first_valid_image_url` from src/crawler1.py: for `i` in
`range(max_tries)`, probe `base_url` templated with `start_ts + i * step`;
return `(url, ts)` on the first success, `none` when the budget is
exhausted. -/
def find_first_valid_image_url (probe : Nat → Bool) (base_url : String)
    (start_ts : Int) (step : Int) (max_tries : Nat) :
    (Option (String × Int)) × List Nat :=
  findLoop probe base_url start_ts step 0 max_tries

set_option maxRecDepth 8000

/-- The classifier is the conjunction of its three tests: status 200,
content-type (lowercased) containing "image" or "octet-stream", and the
size check. -/
lemma is_image_response_eq (resp : Response) :
    is_image_response resp =
      (decide (resp.status_code = 200) &&
       (strContains (pyLower (resp.contentType.getD "")) "image" ||
        strContains (pyLower (resp.contentType.getD "")) "octet-stream") &&
       size_check_ok resp) := by
  unfold is_image_response size_check_ok
  by_cases h200 : resp.status_code = 200
  · by_cases hA : strContains (pyLower (resp.contentType.getD "")) "image" = true
    · simp [h200, hA]
    · by_cases hB : strContains (pyLower (resp.contentType.getD "")) "octet-stream" = true
      · simp [h200, hA, hB]
      · simp [h200, hA, hB]
  · simp [h200]

lemma isPrefixOf_append_self : ∀ (p s : List Char), p.isPrefixOf (p ++ s) = true
  | [], _ => by simp
  | a :: p, s => by simp [List.isPrefixOf, isPrefixOf_append_self p s]

lemma containsSub_nil_left (l : List Char) : containsSub [] l = true := by
  cases l <;> simp [containsSub, List.isPrefixOf]

lemma containsSub_append_self (m l : List Char) : containsSub m (m ++ l) = true := by
  cases m with
  | nil => exact containsSub_nil_left _
  | cons a mt => simp [containsSub, isPrefixOf_append_self]

lemma containsSub_append_left (m l' l : List Char) (h : containsSub m l = true) :
    containsSub m (l' ++ l) = true := by
  induction l' with
  | nil => simpa using h
  | cons c rest ih => simp [containsSub, ih]

/-- A pattern that occurs nowhere in `l` is left alone by `replaceList`. -/
lemma replaceListGo_nil (pat rep : List Char) (fuel : Nat) :
    replaceListGo pat rep fuel [] = [] := by
  cases fuel <;> simp [replaceListGo]

/-- The scanner ignores surplus fuel: any fuel at least the list length
gives the same result. -/
lemma replaceListGo_fuel (pat rep : List Char) :
    ∀ (f1 f2 : Nat) (l : List Char), l.length ≤ f1 → l.length ≤ f2 →
    replaceListGo pat rep f1 l = replaceListGo pat rep f2 l := by
  intro f1
  induction f1 with
  | zero =>
    intro f2 l h1 _
    have hl : l = [] := List.eq_nil_of_length_eq_zero (Nat.le_zero.mp h1)
    subst hl
    rw [replaceListGo_nil, replaceListGo_nil]
  | succ f ih =>
    intro f2 l h1 h2
    cases l with
    | nil => rw [replaceListGo_nil, replaceListGo_nil]
    | cons c rest =>
      match f2, h2 with
      | f2' + 1, h2 =>
        simp only [replaceListGo]
        have hr1 : rest.length ≤ f := by simpa using h1
        have hr2 : rest.length ≤ f2' := by simpa using h2
        by_cases hc : pat.isPrefixOf (c :: rest) = true ∧ pat ≠ []
        · rw [if_pos hc, if_pos hc]
          exact congrArg (rep ++ ·) (ih f2' _
            (le_trans (by simp [List.length_drop]) hr1)
            (le_trans (by simp [List.length_drop]) hr2))
        · rw [if_neg hc, if_neg hc]
          exact congrArg (c :: ·) (ih f2' rest hr1 hr2)

lemma replaceList_of_not_contains (pat rep l : List Char)
    (h : containsSub pat l = false) : replaceList pat rep l = l := by
  induction l with
  | nil => rfl
  | cons c rest ih =>
    rw [containsSub, Bool.or_eq_false_iff] at h
    show replaceListGo pat rep (rest.length + 1) (c :: rest) = c :: rest
    simp only [replaceListGo]
    rw [if_neg (by simp [h.1])]
    exact congrArg (c :: ·) (ih h.2)

/-- `replaceList` on a list whose first pattern occurrence sits right after
`pre`: the occurrence is replaced and scanning continues on `suf`. -/
lemma replaceList_split (pat rep : List Char) (hne : pat ≠ []) :
    ∀ pre suf : List Char,
    (∀ i, i < pre.length → pat.isPrefixOf ((pre ++ pat ++ suf).drop i) = false) →
    replaceList pat rep (pre ++ pat ++ suf) = pre ++ rep ++ replaceList pat rep suf
  | [], suf, _ => by
    cases pat with
    | nil => exact absurd rfl hne
    | cons a pt =>
      rw [List.nil_append, List.cons_append]
      show replaceListGo (a :: pt) rep ((pt ++ suf).length + 1) (a :: (pt ++ suf)) = _
      simp only [replaceListGo]
      rw [if_pos ⟨by rw [← List.cons_append]; exact isPrefixOf_append_self _ _, by simp⟩]
      have hdrop : (pt ++ suf).drop ((a :: pt).length - 1) = suf := by
        simp only [List.length_cons, Nat.add_sub_cancel]
        exact List.drop_left pt suf
      rw [hdrop]
      rw [replaceListGo_fuel (a :: pt) rep (pt ++ suf).length suf.length suf
        (by rw [List.length_append]; exact Nat.le_add_left _ _) (Nat.le_refl _)]
      simp [replaceList]
  | c :: pre, suf, h => by
    have h0 := h 0 (Nat.succ_pos _)
    simp only [List.drop_zero, List.cons_append] at h0
    rw [List.cons_append, List.cons_append]
    show replaceListGo pat rep ((pre ++ pat ++ suf).length + 1)
      (c :: (pre ++ pat ++ suf)) = _
    simp only [replaceListGo]
    rw [if_neg (by simp_all [List.append_assoc])]
    rw [show replaceListGo pat rep (pre ++ pat ++ suf).length (pre ++ pat ++ suf) =
      replaceList pat rep (pre ++ pat ++ suf) from rfl]
    rw [replaceList_split pat rep hne pre suf (fun i hi => by
      have hh := h (i + 1) (by simpa using hi)
      simpa using hh)]
    simp

/-- When every probe in the window fails, the loop exhausts its budget,
probing each index exactly once, in order. -/
lemma findLoop_all_fail (probe : Nat → Bool) (b : String) (s st : Int) :
    ∀ (fuel i0 : Nat), (∀ k, k < fuel → probe (i0 + k) = false) →
    findLoop probe b s st i0 fuel = (none, List.range' i0 fuel) := by
  intro fuel
  induction fuel with
  | zero => intro i0 _; rfl
  | succ n ih =>
    intro i0 h
    have h0 : probe i0 = false := by simpa using h 0 (Nat.succ_pos _)
    rw [findLoop, if_neg (by simp [h0]), ih (i0 + 1)
      (fun k hk => by simpa [Nat.add_assoc, Nat.add_comm 1 k] using h (k + 1) (by omega))]
    rw [List.range'_succ]

/-- When index `i0 + m` is the first success in the window, the loop stops
there, probing exactly the indices `i0, …, i0 + m` in order. -/
lemma findLoop_first_success (probe : Nat → Bool) (b : String) (s st : Int) :
    ∀ (m fuel i0 : Nat), m < fuel →
    (∀ k, k < m → probe (i0 + k) = false) → probe (i0 + m) = true →
    findLoop probe b s st i0 fuel =
      (some (replace_timestamp_in_url b (s + ((i0 + m : Nat) : Int) * st),
        s + ((i0 + m : Nat) : Int) * st), List.range' i0 (m + 1)) := by
  intro m
  induction m with
  | zero =>
    intro fuel i0 hlt _ hsucc
    match fuel, hlt with
    | n + 1, _ =>
      rw [findLoop, if_pos (by simpa using hsucc)]
      simp
  | succ m ih =>
    intro fuel i0 hlt hfail hsucc
    match fuel, hlt with
    | n + 1, _ =>
      have h0 : probe i0 = false := by simpa using hfail 0 (Nat.succ_pos _)
      rw [findLoop, if_neg (by simp [h0]), ih n (i0 + 1) (by omega)
        (fun k hk => by simpa [Nat.add_assoc, Nat.add_comm 1 k] using hfail (k + 1) (by omega))
        (by simpa [Nat.add_assoc, Nat.add_comm 1 m] using hsucc)]
      have harith : i0 + 1 + m = i0 + (m + 1) := by omega
      rw [harith, List.range'_succ i0 (m + 1) 1]

lemma containsSub_self (m : List Char) : containsSub m m = true := by
  have h := containsSub_append_self m []
  simpa using h

/-- C8: a response whose status code is not 200 is rejected by the
classifier, whatever its headers and body. -/
theorem claim_C8 (resp : Response) (h : resp.status_code ≠ 200) :
    is_image_response resp = false := by
  rw [is_image_response_eq]
  simp [h]

/-- Witness for C8 at a concrete 404 response. -/
theorem claim_C8_witness :
    is_image_response ⟨404, some "image/png", some "500", []⟩ = false :=
  claim_C8 ⟨404, some "image/png", some "500", []⟩ (by decide)

/-- C7: for a status-200 response that passes the size check, the
classifier accepts exactly when the lowercased Content-Type contains
"image" or "octet-stream"; in particular a 200 response with Content-Type
"application/octet-stream", no Content-Length and a 200-byte body is
accepted. -/
theorem claim_C7 :
    (∀ resp : Response, resp.status_code = 200 → size_check_ok resp = true →
      (is_image_response resp = true ↔
        (strContains (pyLower (resp.contentType.getD "")) "image" = true ∨
         strContains (pyLower (resp.contentType.getD "")) "octet-stream" = true))) ∧
    is_image_response ⟨200, some "application/octet-stream", none,
      List.replicate 200 0⟩ = true := by
  constructor
  · intro resp h200 hsize
    rw [is_image_response_eq]
    simp [h200, hsize]
  · decide

/-- Witness for C7: the content-type test decides the verdict at a
concrete size-check-passing response. -/
theorem claim_C7_witness :
    is_image_response ⟨200, some "IMAGE/png", some "500", []⟩ = true :=
  (claim_C7.1 ⟨200, some "IMAGE/png", some "500", []⟩ rfl (by decide)).mpr
    (Or.inl (by decide))

/-- Counterexample to C1 as stated: at status 200, Content-Type
"image/png", unparsable Content-Length "abc" and an empty body (far below
128 bytes), the classifier returns `true`, not `false`: the `ValueError`
is passed over and no body-length check happens. -/
theorem claim_C1_counterexample :
    pyParseInt "abc" = none ∧
    (⟨200, some "image/png", some "abc", []⟩ : Response).content.length < 128 ∧
    is_image_response ⟨200, some "image/png", some "abc", []⟩ = true := by
  refine ⟨by decide, by decide, by decide⟩

/-- C1 (amended): when the Content-Length header is present, non-empty and
unparsable, the classifier skips the size check entirely and accepts any
status-200 response with an acceptable content type, regardless of the
fetched body's length. -/
theorem claim_C1 (resp : Response) (cl : String)
    (h200 : resp.status_code = 200)
    (htype : strContains (pyLower (resp.contentType.getD "")) "image" = true ∨
      strContains (pyLower (resp.contentType.getD "")) "octet-stream" = true)
    (hcl : resp.contentLength = some cl) (hne : cl ≠ "")
    (hparse : pyParseInt cl = none) :
    is_image_response resp = true := by
  rw [is_image_response_eq]
  have hsize : size_check_ok resp = true := by
    unfold size_check_ok
    rw [hcl]
    simp [hne, hparse]
  rcases htype with h | h <;> simp [h200, h, hsize]

/-- Witness for the amended C1 at the counterexample input. -/
theorem claim_C1_witness :
    is_image_response ⟨200, some "image/png", some "abc", []⟩ = true :=
  claim_C1 ⟨200, some "image/png", some "abc", []⟩ "abc" rfl
    (Or.inl (by decide)) rfl (by decide) (by decide)

/-- C2: the search loop tries candidates in exactly the order start,
start+step, start+2·step, …; the first succeeding index is returned as
`(url, ts)` and no index beyond it is probed (the probed indices are
exactly `0, …, i`); if all `max_tries` probes fail it returns `none`
after probing exactly `0, …, max_tries - 1`. -/
theorem claim_C2 (probe : Nat → Bool) (b : String) (s st : Int) (max_tries : Nat) :
    (∀ i, i < max_tries → (∀ j, j < i → probe j = false) → probe i = true →
      find_first_valid_image_url probe b s st max_tries =
        (some (replace_timestamp_in_url b (s + (i : Int) * st), s + (i : Int) * st),
          List.range (i + 1))) ∧
    ((∀ j, j < max_tries → probe j = false) →
      find_first_valid_image_url probe b s st max_tries =
        (none, List.range max_tries)) := by
  constructor
  · intro i hi hfail hsucc
    have h := findLoop_first_success probe b s st i max_tries 0 hi
      (fun k hk => by simpa using hfail k hk) (by simpa using hsucc)
    rw [find_first_valid_image_url, h]
    simp [List.range_eq_range']
  · intro hfail
    have h := findLoop_all_fail probe b s st max_tries 0
      (fun k hk => by simpa using hfail k hk)
    rw [find_first_valid_image_url, h, List.range_eq_range']

/-- Witness for C2: with only index 3 succeeding, the loop probes exactly
indices 0, 1, 2, 3 and returns the templated URL and timestamp of
index 3. -/
theorem claim_C2_witness :
    find_first_valid_image_url (fun i => i == 3) "u{ts}" 100 2 10 =
      (some ("u106", 106), [0, 1, 2, 3]) := by
  rw [(claim_C2 (fun i => i == 3) "u{ts}" 100 2 10).1 3 (by decide) (by decide)
    (by decide)]
  rfl

/-- C6: with `max_tries = 0` the search loop returns `none` at once and
probes nothing. -/
theorem claim_C6 (probe : Nat → Bool) (b : String) (s st : Int) :
    find_first_valid_image_url probe b s st 0 = (none, []) := rfl

/-- C4: the prober never lets a network exception escape — it always
returns a boolean.  A failing HEAD gives the same result as skipping the
HEAD entirely (fall through to the full GET); a failing fallback GET gives
`false`; when every GET the call could issue fails, the result is `false`
whatever the HEAD did. -/
theorem claim_C4 (net : Network) (hf : Bool) (g1 g2 : Fetch) :
    (try_fetch_image ⟨Fetch.exn, g1, g2⟩ true =
      try_fetch_image ⟨Fetch.exn, g1, g2⟩ false) ∧
    (net.get2 = Fetch.exn → try_fetch_image net false = false) ∧
    (net.get1 = Fetch.exn → net.get2 = Fetch.exn →
      try_fetch_image net hf = false) := by
  refine ⟨rfl, ?_, ?_⟩
  · intro h2
    simp [try_fetch_image, h2]
  · intro h1 h2
    rcases net with ⟨h, ng1, ng2⟩
    simp only at h1 h2
    subst h1
    subst h2
    cases hf
    · simp [try_fetch_image]
    · cases h with
      | exn => simp [try_fetch_image]
      | resp hr => simp [try_fetch_image]

/-- Witness for C4: all requests failing yields `false`. -/
theorem claim_C4_witness :
    try_fetch_image ⟨Fetch.resp ⟨200, none, none, []⟩, Fetch.exn, Fetch.exn⟩
      true = false :=
  (claim_C4 ⟨Fetch.resp ⟨200, none, none, []⟩, Fetch.exn, Fetch.exn⟩ true
    Fetch.exn Fetch.exn).2.2 rfl rfl

/-- C9: a completed HEAD with a non-success status other than 405 does not
decide the probe; the code falls through to the fallback GET and returns
the classifier's verdict on that GET's response. -/
theorem claim_C9 (h : Response) (g1 : Fetch) (g2 : Response)
    (hok : ¬ (h.status_code < 400)) (h405 : h.status_code ≠ 405) :
    try_fetch_image ⟨Fetch.resp h, g1, Fetch.resp g2⟩ true =
      is_image_response g2 := by
  simp [try_fetch_image, hok, h405]

/-- Witness for C9: a 404 HEAD falls through and the GET's classification
is returned. -/
theorem claim_C9_witness :
    try_fetch_image ⟨Fetch.resp ⟨404, none, none, []⟩, Fetch.exn,
      Fetch.resp ⟨200, some "image/png", some "500", []⟩⟩ true =
      is_image_response ⟨200, some "image/png", some "500", []⟩ :=
  claim_C9 ⟨404, none, none, []⟩ Fetch.exn ⟨200, some "image/png", some "500", []⟩
    (by decide) (by decide)

/-- C5: templating is a literal replacement of the token by the decimal
form of the timestamp.  If the token does not occur in the template, the
URL comes back unchanged (and no error is raised — the function is total);
if it occurs exactly once (no occurrence starts inside the part before it
and none occurs after it), exactly that occurrence becomes the decimal
string and every other character is preserved. -/
theorem claim_C5 (url : String) (ts : Int) :
    (containsSub "{ts}".toList url.toList = false →
      replace_timestamp_in_url url ts = url) ∧
    (∀ pre suf : List Char,
      url.toList = pre ++ "{ts}".toList ++ suf →
      (∀ i, i < pre.length →
        ("{ts}".toList).isPrefixOf (url.toList.drop i) = false) →
      containsSub "{ts}".toList suf = false →
      (replace_timestamp_in_url url ts).toList =
        pre ++ (toString ts).toList ++ suf) := by
  constructor
  · intro h
    rw [replace_timestamp_in_url, replaceList_of_not_contains _ _ _ h,
      String.asString_toList]
  · intro pre suf hsplit hfirst hsuf
    rw [replace_timestamp_in_url, List.toList_asString, hsplit,
      replaceList_split _ _ (by decide) pre suf (fun i hi => by
        rw [← hsplit]
        exact hfirst i hi),
      replaceList_of_not_contains _ _ _ hsuf]

/-- Witness for C5: a token-free template is unchanged; a single token is
replaced by "42" with the surrounding characters intact. -/
theorem claim_C5_witness :
    replace_timestamp_in_url "abc" 42 = "abc" ∧
    (replace_timestamp_in_url "ab{ts}c" 42).toList =
      "ab".toList ++ (toString (42 : Int)).toList ++ "c".toList :=
  ⟨(claim_C5 "abc" 42).1 (by decide),
   (claim_C5 "ab{ts}c" 42).2 "ab".toList "c".toList (by decide) (by decide)
     (by decide)⟩

/-- C3: when the re-fetch at download time completes but is rejected by the
classifier, `save_image` raises an error whose message contains the
response's status code and content type, and writes no file. -/
theorem claim_C3 (resp : Response) (url dir : String) (now : Nat)
    (hbad : is_image_response resp = false) :
    (save_image (Fetch.resp resp) url dir now).1 =
      Except.error ("下载失败或非图片响应：" ++ toString resp.status_code ++ " " ++
        resp.contentType.getD "") ∧
    containsSub (toString resp.status_code).toList
      ("下载失败或非图片响应：" ++ toString resp.status_code ++ " " ++
        resp.contentType.getD "").toList = true ∧
    containsSub (resp.contentType.getD "").toList
      ("下载失败或非图片响应：" ++ toString resp.status_code ++ " " ++
        resp.contentType.getD "").toList = true ∧
    (save_image (Fetch.resp resp) url dir now).2.filesWritten = [] := by
  refine ⟨?_, ?_, ?_, ?_⟩
  · simp [save_image, hbad]
  · rw [show ("下载失败或非图片响应：" ++ toString resp.status_code ++ " " ++
        resp.contentType.getD "").toList =
        "下载失败或非图片响应：".toList ++ ((toString resp.status_code).toList ++
          (" ".toList ++ (resp.contentType.getD "").toList)) from by
      simp [String.toList]]
    exact containsSub_append_left _ _ _ (containsSub_append_self _ _)
  · rw [show ("下载失败或非图片响应：" ++ toString resp.status_code ++ " " ++
        resp.contentType.getD "").toList =
        ("下载失败或非图片响应：".toList ++ (toString resp.status_code).toList ++
          " ".toList) ++ (resp.contentType.getD "").toList from by
      simp [String.toList]]
    exact containsSub_append_left _ _ _ (containsSub_self _)
  · simp [save_image, hbad]

/-- Witness for C3 at a 404 re-fetch: explicit error, no file written. -/
theorem claim_C3_witness :
    (save_image (Fetch.resp ⟨404, some "text/html", none, []⟩)
      "https://h/a.jpg" "downloads" 0).1 =
      Except.error "下载失败或非图片响应：404 text/html" ∧
    (save_image (Fetch.resp ⟨404, some "text/html", none, []⟩)
      "https://h/a.jpg" "downloads" 0).2.filesWritten = [] := by
  have h := claim_C3 ⟨404, some "text/html", none, []⟩ "https://h/a.jpg"
    "downloads" 0 (by decide)
  exact ⟨by rw [h.1]; rfl, h.2.2.2⟩

/-- C10: `save_image` creates the destination directory (parents included,
idempotently) before its fetch — so the directory is created on every
path, including when the fetch raises or the classifier rejects — and on
those error paths nothing else is touched: no file is written. -/
theorem claim_C10 (fetch : Fetch) (url dir : String) (now : Nat) :
    (save_image fetch url dir now).2.dirsCreated = [dir] ∧
    (∀ resp, fetch = Fetch.resp resp → is_image_response resp = false →
      (save_image fetch url dir now).2 = ⟨[dir], []⟩) ∧
    (fetch = Fetch.exn → (save_image fetch url dir now).2 = ⟨[dir], []⟩) := by
  refine ⟨?_, ?_, ?_⟩
  · cases fetch with
    | exn => rfl
    | resp resp =>
      by_cases hbad : is_image_response resp = true
      · simp [save_image, hbad]
      · simp [save_image, hbad]
  · intro resp heq hbad
    subst heq
    simp [save_image, hbad]
  · intro hexn
    subst hexn
    rfl

/-- Witness for C10: a failing fetch still leaves the directory created
and no files written. -/
theorem claim_C10_witness :
    (save_image Fetch.exn "https://h/a.jpg" "downloads" 0).2 =
      ⟨["downloads"], []⟩ :=
  (claim_C10 Fetch.exn "https://h/a.jpg" "downloads" 0).2.2 rfl
